import Mathlib

/-!
Verification of the report-ticket API (`server/index.js`) and the chat
page (`src/pages/Chat.tsx`) of the repository, against its natural-language
specification.  JavaScript numbers that occur in the server's pagination
arithmetic are modelled exactly: the only non-finite value reachable from
`Number.parseInt` is `NaN`, and `Infinity` can only arise from the
`Math.ceil` division, so numbers are represented by an integer together
with the three special values.  Machine-float rounding (only observable for
astronomically large numeric strings) is outside the scope of the model.
-/

/-- Characters removed by JavaScript `String.prototype.trim` and skipped by
`Number.parseInt`; the common ASCII whitespace set used in this code base
(exotic Unicode space characters never occur in the modelled strings). -/
def jsWhitespaceChar (c : Char) : Bool :=
  c = ' ' ∨ c = '\t' ∨ c = '\n' ∨ c = '\r' ∨ c = '\x0b' ∨ c = '\x0c'

/-- JavaScript `String.prototype.trim`. -/
def jsTrim (s : String) : String :=
  String.mk (((s.data.dropWhile jsWhitespaceChar).reverse.dropWhile jsWhitespaceChar).reverse)

/-- A JavaScript number as it occurs in the server's pagination arithmetic:
an exact integer, `NaN`, or a signed infinity. -/
inductive JsNum where
  | i : Int → JsNum
  | nan : JsNum
  | inf : JsNum
  | ninf : JsNum
deriving DecidableEq, Repr

/-- JavaScript unary minus on the modelled numbers. -/
def JsNum.neg : JsNum → JsNum
  | .i a => .i (-a)
  | .nan => .nan
  | .inf => .ninf
  | .ninf => .inf

/-- JavaScript `+` on the modelled numbers (exact on integers). -/
def JsNum.add : JsNum → JsNum → JsNum
  | .nan, _ => .nan
  | _, .nan => .nan
  | .i a, .i b => .i (a + b)
  | .inf, .ninf => .nan
  | .ninf, .inf => .nan
  | .inf, _ => .inf
  | _, .inf => .inf
  | .ninf, _ => .ninf
  | _, .ninf => .ninf

/-- JavaScript `-` on the modelled numbers. -/
def JsNum.sub (a b : JsNum) : JsNum :=
  a.add b.neg

/-- JavaScript `*` on the modelled numbers. -/
def JsNum.mul : JsNum → JsNum → JsNum
  | .nan, _ => .nan
  | _, .nan => .nan
  | .i a, .i b => .i (a * b)
  | .inf, .i b => if b = 0 then .nan else if 0 < b then .inf else .ninf
  | .i a, .inf => if a = 0 then .nan else if 0 < a then .inf else .ninf
  | .ninf, .i b => if b = 0 then .nan else if 0 < b then .ninf else .inf
  | .i a, .ninf => if a = 0 then .nan else if 0 < a then .ninf else .inf
  | .inf, .inf => .inf
  | .ninf, .ninf => .inf
  | .inf, .ninf => .ninf
  | .ninf, .inf => .ninf

/-- Value of a list of decimal digit characters. -/
def digitsToNat (ds : List Char) : Nat :=
  ds.foldl (fun a c => a * 10 + (c.toNat - 48)) 0

/-- JavaScript `Number.parseInt(s, 10)`: skip leading whitespace, read an
optional sign and then the longest prefix of decimal digits; `NaN` when no
digit is found.  Digit strings are evaluated exactly (float rounding of
astronomically long inputs is out of scope). -/
def parseIntJS (s : String) : JsNum :=
  let cs := s.data.dropWhile jsWhitespaceChar
  match cs with
  | '-' :: rest =>
    let ds := rest.takeWhile Char.isDigit
    if ds.isEmpty then .nan else .i (-(digitsToNat ds : Int))
  | '+' :: rest =>
    let ds := rest.takeWhile Char.isDigit
    if ds.isEmpty then .nan else .i (digitsToNat ds)
  | _ =>
    let ds := cs.takeWhile Char.isDigit
    if ds.isEmpty then .nan else .i (digitsToNat ds)

/-- Index conversion performed by `Array.prototype.slice` on each bound
(ECMAScript `ToIntegerOrInfinity` followed by the relative-index clamp):
`NaN` becomes `0`, negative values count from the end clamped at `0`, and
values beyond the length clamp to the length. -/
def sliceIndex (len : Nat) : JsNum → Nat
  | .nan => 0
  | .inf => len
  | .ninf => 0
  | .i k => if k < 0 then len - min (-k).toNat len else min k.toNat len

/-- JavaScript `Array.prototype.slice(start, stop)`. -/
def jsSlice {α : Type} (l : List α) (start stop : JsNum) : List α :=
  (l.take (sliceIndex l.length stop)).drop (sliceIndex l.length start)

/-- JavaScript `Math.ceil(len / m)` for a natural `len` (an array length)
and a modelled number `m`, as used for `totalPages`.  Division by a nonzero
integer is exact on the rationals, so the ceiling is the mathematical one;
division by zero follows the JavaScript rules (`len / 0` is `Infinity` for
positive `len` and `NaN` for `len = 0`). -/
def jsCeilDivLen (len : Nat) : JsNum → JsNum
  | .nan => .nan
  | .inf => .i 0
  | .ninf => .i 0
  | .i k =>
    if k = 0 then (if len = 0 then .nan else .inf)
    else .i ⌈(len : ℚ) / (k : ℚ)⌉

/-- A stored report ticket (`server/index.js`); `location` is `none` for
JavaScript `null` or an absent field. -/
structure Ticket where
  ticket_id : String
  issue_type : String
  title : String
  description : String
  location : Option String
  status : String
  created_at : String
deriving DecidableEq, Repr

/-- First seeded ticket of the `reports` array. -/
def seedTicket1 : Ticket :=
  { ticket_id := "SBU-84393"
    issue_type := "Suspicious Individual"
    title := "Suspicious person near library entrance"
    description := "Observed an individual acting suspiciously near the main library entrance around 2 PM."
    location := none
    status := "Pending Review"
    created_at := "2023-10-27 14:30:00" }

/-- Second seeded ticket of the `reports` array. -/
def seedTicket2 : Ticket :=
  { ticket_id := "SBU-84392"
    issue_type := "Suspicious Individual"
    title := "Person seen tailgating into secure lab"
    description := "An individual followed a staff member through the secure lab doors without a badge."
    location := none
    status := "Pending Review"
    created_at := "2023-10-26 18:00:00" }

/-- Mutable server state: the counter captured by the `buildTicketId`
closure and the `reports` array (newest first). -/
structure ServerState where
  counter : Nat
  reports : List Ticket
deriving DecidableEq, Repr

/-- Server state at process start: `counter = 8394`, two seeded tickets. -/
def initialState : ServerState :=
  { counter := 8394, reports := [seedTicket1, seedTicket2] }

/-- The `buildTicketId` closure: increments the captured counter and
returns the new id together with the new counter value. -/
def buildTicketId (counter : Nat) : String × Nat :=
  (("SBU-" ++ toString (counter + 1)), counter + 1)

/-- Body of a `POST /api/reports` request; each field is `none` when absent
from the JSON body. -/
structure ReportRequest where
  issue_type : Option String
  title : Option String
  description : Option String
  location : Option String
deriving DecidableEq, Repr

/-- Result sent by the `POST /api/reports` handler. -/
inductive PostResult where
  | badRequest : String → PostResult
  | created : String → Ticket → PostResult
deriving DecidableEq, Repr

/-- HTTP status code attached to a `PostResult`. -/
def PostResult.httpStatus : PostResult → Nat
  | .badRequest _ => 400
  | .created _ _ => 201

/-- The `POST /api/reports` handler.  The JavaScript guard
`if (!issue_type || !title || !description)` rejects exactly the absent or
empty-string fields (for string-typed bodies); on success it builds the
ticket, defaults `location` with `?? null`, and `unshift`s it onto
`reports`.  `now` stands for `new Date().toISOString()`. -/
def postReport (s : ServerState) (req : ReportRequest) (now : String) :
    PostResult × ServerState :=
  match req.issue_type, req.title, req.description with
  | some it, some ti, some de =>
    if it = "" ∨ ti = "" ∨ de = "" then
      (.badRequest "issue_type, title, and description are required.", s)
    else
      let idAndCounter := buildTicketId s.counter
      let t : Ticket :=
        { ticket_id := idAndCounter.1
          issue_type := it
          title := ti
          description := de
          location := req.location
          status := "Pending Review"
          created_at := now }
      (.created "Report submitted successfully" t,
        { counter := idAndCounter.2, reports := t :: s.reports })
  | _, _, _ =>
    (.badRequest "issue_type, title, and description are required.", s)

/-- Query string of a `GET /api/reports` request; `none` when a parameter
is absent. -/
structure ListQuery where
  page : Option String
  limit : Option String
deriving DecidableEq, Repr

/-- Pagination object returned by the listing handler. -/
structure Pagination where
  totalResults : Nat
  totalPages : JsNum
  currentPage : JsNum
deriving DecidableEq, Repr

/-- Response of the `GET /api/reports` handler. -/
structure ListResponse where
  data : List Ticket
  pagination : Pagination
deriving DecidableEq, Repr

/-- Core of the `GET /api/reports` handler, after the two query parameters
have been parsed: `start = (page - 1) * limit`, `stop = start + limit`,
`data = reports.slice(start, stop)`, and the pagination object. -/
def listReports (s : ServerState) (page limit : JsNum) : ListResponse :=
  let start := (page.sub (.i 1)).mul limit
  let stop := start.add limit
  { data := jsSlice s.reports start stop
    pagination :=
      { totalResults := s.reports.length
        totalPages := jsCeilDivLen s.reports.length limit
        currentPage := page } }

/-- The `GET /api/reports` handler: `parseInt(req.query.page ?? '1', 10)`
and `parseInt(req.query.limit ?? '10', 10)` feed `listReports`. -/
def getReports (s : ServerState) (q : ListQuery) : ListResponse :=
  listReports s (parseIntJS (q.page.getD "1")) (parseIntJS (q.limit.getD "10"))

/-- A fixed valid submission body, used to iterate the POST handler. -/
def validSubmission : ReportRequest :=
  { issue_type := some "Phishing", title := some "t", description := some "d",
    location := none }

/-- Server state after `n` valid submissions against one store instance. -/
def submitN : Nat → ServerState
  | 0 => initialState
  | n + 1 => (postReport (submitN n) validSubmission "2025-01-01T00:00:00.000Z").2


/-! ### JavaScript JSON values (`src/pages/Chat.tsx`) -/

/-- A JSON value as delivered by `response.json()`.  Numbers are exact
rationals: every IEEE double that can appear in a JSON payload is a
rational, and the claim-relevant payloads only contain small integers
(double rounding of long decimal literals is outside the scope of the
model). -/
inductive Json where
  | str : String → Json
  | num : ℚ → Json
  | bool : Bool → Json
  | null : Json
  | arr : List Json → Json
  | obj : List (String × Json) → Json

/-- Lookup of a key in an object's field list (field lists hold one entry
per key, as produced by a JavaScript object literal or `JSON.parse`). -/
def lookupField : List (String × Json) → String → Option Json
  | [], _ => none
  | (k, v) :: rest, key => if k = key then some v else lookupField rest key

/-- JavaScript property access `value[key]`: `none` is `undefined`.  The
probed keys (`answer`, `choices`, `message`, ...) are never built-in
properties such as `length`, so non-objects always give `undefined`. -/
def getField : Json → String → Option Json
  | .obj fields, key => lookupField fields key
  | _, _ => none

/-- JavaScript falsiness of a JSON value (`!v`): `null`, `false`, `0` and
the empty string are falsy; objects and arrays are always truthy. -/
def Json.falsy : Json → Bool
  | .null => true
  | .bool b => !b
  | .num q => q == 0
  | .str s => s == ""
  | .arr _ => false
  | .obj _ => false

/-- Decimal digits of the fractional part of `r / den` (`0 ≤ r < den`),
with fuel; expansions of denominators that are products of 2 and 5 — the
only ones reachable from parsed JSON numbers — always terminate well within
the fuel. -/
def fracDigits : Nat → Nat → Nat → List Char
  | 0, _, _ => []
  | _ + 1, 0, _ => []
  | fuel + 1, r, den =>
    Char.ofNat (48 + r * 10 / den) :: fracDigits fuel (r * 10 % den) den

/-- JavaScript `String(n)` for a finite number: integers print without a
decimal point, other values print their (terminating) decimal expansion. -/
def ratToJsString (q : ℚ) : String :=
  if q.den = 1 then toString q.num
  else
    (if q < 0 then "-" else "")
      ++ toString (q.num.natAbs / q.den) ++ "."
      ++ String.mk (fracDigits 1100 (q.num.natAbs % q.den) q.den)

mutual

/-- JavaScript `String(v)` conversion as used by `Array.prototype.join`:
arrays flatten with commas, plain objects print `[object Object]`. -/
def jsToString : Json → String
  | .str s => s
  | .num q => ratToJsString q
  | .bool b => if b then "true" else "false"
  | .null => "null"
  | .arr xs => jsArrJoin "," xs
  | .obj _ => "[object Object]"

/-- JavaScript `Array.prototype.join(sep)`: `null` (and `undefined`)
elements contribute the empty string, other elements their `String(v)`. -/
def jsArrJoin (sep : String) : List Json → String
  | [] => ""
  | [x] =>
    match x with
    | .null => ""
    | _ => jsToString x
  | x :: y :: rest =>
    (match x with
      | .null => ""
      | _ => jsToString x) ++ sep ++ jsArrJoin sep (y :: rest)

end

/-- Hexadecimal digit character (lower case), for `\u00XX` escapes. -/
def hexDigit (n : Nat) : Char :=
  if n < 10 then Char.ofNat (48 + n) else Char.ofNat (87 + n)

/-- String-body escaping performed by `JSON.stringify`. -/
def escapeChars : List Char → List Char
  | [] => []
  | c :: rest =>
    if c = '"' then '\\' :: '"' :: escapeChars rest
    else if c = '\\' then '\\' :: '\\' :: escapeChars rest
    else if c = '\x08' then '\\' :: 'b' :: escapeChars rest
    else if c = '\t' then '\\' :: 't' :: escapeChars rest
    else if c = '\n' then '\\' :: 'n' :: escapeChars rest
    else if c = '\x0c' then '\\' :: 'f' :: escapeChars rest
    else if c = '\r' then '\\' :: 'r' :: escapeChars rest
    else if c.toNat < 32 then
      '\\' :: 'u' :: '0' :: '0' :: hexDigit (c.toNat / 16) :: hexDigit (c.toNat % 16)
        :: escapeChars rest
    else c :: escapeChars rest

/-- A JSON string literal as produced by `JSON.stringify`. -/
def quoteJs (s : String) : String :=
  "\"" ++ String.mk (escapeChars s.data) ++ "\""

mutual

/-- `JSON.stringify(v, null, 2)` at nesting indentation `ind`. -/
def stringifyAt (ind : String) : Json → String
  | .str s => quoteJs s
  | .num q => ratToJsString q
  | .bool b => if b then "true" else "false"
  | .null => "null"
  | .arr [] => "[]"
  | .arr (x :: xs) =>
    "[\n" ++ ind ++ "  " ++ stringifyItems (ind ++ "  ") x xs ++ "\n" ++ ind ++ "]"
  | .obj [] => "\x7b\x7d"
  | .obj (f :: fs) =>
    "\x7b\n" ++ ind ++ "  " ++ stringifyFields (ind ++ "  ") f fs ++ "\n" ++ ind ++ "\x7d"
termination_by j => sizeOf j

/-- Comma-and-newline separated array items. -/
def stringifyItems (ind : String) : Json → List Json → String
  | x, [] => stringifyAt ind x
  | x, y :: rest => stringifyAt ind x ++ ",\n" ++ ind ++ stringifyItems ind y rest
termination_by x xs => sizeOf x + sizeOf xs

/-- Comma-and-newline separated `"key": value` members. -/
def stringifyFields (ind : String) : String × Json → List (String × Json) → String
  | (k, v), [] => quoteJs k ++ ": " ++ stringifyAt ind v
  | (k, v), f :: rest =>
    quoteJs k ++ ": " ++ stringifyAt ind v ++ ",\n" ++ ind ++ stringifyFields ind f rest
termination_by f fs => sizeOf f + sizeOf fs

end

/-- `JSON.stringify(payload, null, 2)`, the resolver's fallback. -/
def jsStringifyPretty (j : Json) : String :=
  stringifyAt "" j


/-! ### The Response-Field Resolver (`resolveBotText`) -/

/-- The `sourceParts` filter of the resolver: keep the parts that are
strings with non-whitespace content. -/
def stringParts (xs : List Json) : List String :=
  xs.filterMap (fun j =>
    match j with
    | .str s => if 0 < (jsTrim s).length then some s else none
    | _ => none)

/-- The `candidates` array probed by `resolveBotText`, in source order. -/
def codeCandidates (payload : Json) : List (Option Json) :=
  [ getField payload "answer"
  , getField payload "response"
  , getField payload "output"
  , (match getField payload "outputs" with
      | some (.arr xs) => some (.str (jsArrJoin "\n" xs))
      | _ => none)
  , (match getField payload "sourceParts" with
      | some (.arr xs) =>
        if 0 < xs.length then
          some (.str (String.intercalate "\n" (stringParts xs)))
        else none
      | _ => none)
  , getField payload "rendered"
  , getField payload "text"
  , getField payload "data" ]

/-- The resolver's `for` loop: the first candidate that is a string with
non-whitespace content. -/
def firstTextCandidate : List (Option Json) → Option String
  | [] => none
  | some (.str s) :: rest =>
    if 0 < (jsTrim s).length then some s else firstTextCandidate rest
  | _ :: rest => firstTextCandidate rest

/-- The optional chain `choices[0]?.message?.content` guarded by
`Array.isArray(choices)`. -/
def choicesContentVal (p : Json) : Option Json :=
  match getField p "choices" with
  | some (.arr (c :: _)) =>
    (match getField c "message" with
      | some m => getField m "content"
      | none => none)
  | _ => none

/-- The `choiceContent` local: the chained value when it is truthy, the
empty string otherwise (the `|| \x27\x27` fallback). -/
def choiceContentOf (p : Json) : Json :=
  match choicesContentVal p with
  | some v => if v.falsy then .str "" else v
  | none => .str ""

/-- Body of `resolveBotText` past the falsy and string guards: probe the
candidates, then `choices[0].message.content`, then pretty-print. -/
def resolveProbe (payload : Json) : String :=
  match firstTextCandidate (codeCandidates payload) with
  | some s => s
  | none =>
    match choiceContentOf payload with
    | .str s => if 0 < (jsTrim s).length then s else jsStringifyPretty payload
    | _ => jsStringifyPretty payload

/-- `resolveBotText` (Chat.tsx lines 74-119): empty string for a falsy
payload, a string payload unchanged, otherwise the candidate probe. -/
def resolveBotText (payload : Json) : String :=
  if payload.falsy then ""
  else
    match payload with
    | .str s => s
    | _ => resolveProbe payload

/-! ### The resolver contract from the specification

`specResolveClaimed` renders the claim exactly as stated: no falsiness
clause, the `sourceParts` array "filtered to strings" (a type filter
only), and the `choices` content returned whenever it is a non-empty
string.  `specResolveAmended` is the amended contract that the code
satisfies; it differs from the claim in exactly three places (the falsy
guard, the non-whitespace filter on `sourceParts` parts, and the
non-whitespace requirement on the `choices` content). -/

/-- A candidate value seen as a string, `none` when it is not a string. -/
def optString : Option Json → Option String
  | some (.str s) => some s
  | _ => none

/-- The specification's "filtered-to-strings" filter on `sourceParts`: a
type filter only, keeping every string part including whitespace-only
ones. -/
def stringsOnly (xs : List Json) : List String :=
  xs.filterMap (fun j =>
    match j with
    | .str s => some s
    | _ => none)

/-- The ordered candidate list exactly as the claim states it: `answer`,
`response`, `output`, the newline-joined `outputs` array, the
newline-joined filtered-to-strings `sourceParts` array, `rendered`,
`text`, `data`. -/
def specCandidatesClaimed (p : Json) : List (Option String) :=
  [ optString (getField p "answer")
  , optString (getField p "response")
  , optString (getField p "output")
  , (match getField p "outputs" with
      | some (.arr xs) => some (jsArrJoin "\n" xs)
      | _ => none)
  , (match getField p "sourceParts" with
      | some (.arr xs) => some (String.intercalate "\n" (stringsOnly xs))
      | _ => none)
  , optString (getField p "rendered")
  , optString (getField p "text")
  , optString (getField p "data") ]

/-- The amended candidate list: as claimed, except that the `sourceParts`
candidate joins only the parts that are strings with non-whitespace
content (`stringParts`, as the code does), dropping whitespace-only string
parts. -/
def specCandidatesAmended (p : Json) : List (Option String) :=
  [ optString (getField p "answer")
  , optString (getField p "response")
  , optString (getField p "output")
  , (match getField p "outputs" with
      | some (.arr xs) => some (jsArrJoin "\n" xs)
      | _ => none)
  , (match getField p "sourceParts" with
      | some (.arr xs) => some (String.intercalate "\n" (stringParts xs))
      | _ => none)
  , optString (getField p "rendered")
  , optString (getField p "text")
  , optString (getField p "data") ]

/-- First candidate with non-whitespace content. -/
def firstNonBlank : List (Option String) → Option String
  | [] => none
  | some s :: rest => if 0 < (jsTrim s).length then some s else firstNonBlank rest
  | none :: rest => firstNonBlank rest

/-- The resolver contract exactly as the claim states it: a string payload
unchanged; else the first non-blank candidate (with the type-only
`sourceParts` filter); else `choices[0].message.content` when it is a
non-empty string; else the pretty-printed payload. -/
def specResolveClaimed (p : Json) : String :=
  match p with
  | .str s => s
  | _ =>
    match firstNonBlank (specCandidatesClaimed p) with
    | some s => s
    | none =>
      match optString (choicesContentVal p) with
      | some s => if s ≠ "" then s else jsStringifyPretty p
      | none => jsStringifyPretty p

/-- The amended resolver contract: additionally, any falsy payload (null,
false, 0, the empty string) yields the empty string, the `sourceParts`
candidate drops whitespace-only string parts, and the `choices` content is
returned only when it has non-whitespace content. -/
def specResolveAmended (p : Json) : String :=
  if p.falsy then ""
  else
    match p with
    | .str s => s
    | _ =>
      match firstNonBlank (specCandidatesAmended p) with
      | some s => s
      | none =>
        match optString (choicesContentVal p) with
        | some s => if 0 < (jsTrim s).length then s else jsStringifyPretty p
        | none => jsStringifyPretty p


/-! ### `JSON.parse` (the orchestrator re-parses the resolved reply) -/

/-- JSON insignificant whitespace (space, tab, line feed, carriage
return). -/
def jsonWsChar (c : Char) : Bool :=
  c = ' ' ∨ c = '\t' ∨ c = '\n' ∨ c = '\r'

/-- Skip JSON whitespace. -/
def skipWs (cs : List Char) : List Char :=
  cs.dropWhile jsonWsChar

/-- Value of a hexadecimal digit, `none` for other characters. -/
def hexVal (c : Char) : Option Nat :=
  if '0' ≤ c ∧ c ≤ '9' then some (c.toNat - 48)
  else if 'a' ≤ c ∧ c ≤ 'f' then some (c.toNat - 87)
  else if 'A' ≤ c ∧ c ≤ 'F' then some (c.toNat - 55)
  else none

/-- Body of a JSON string literal, after the opening quote: the decoded
characters and the input past the closing quote.  Surrogate-pair escapes
combine into one code point; a lone surrogate is not a Lean `Char` and
falls back to `Char.ofNat`'s default (unreachable from the payloads any
claim quantifies over). -/
def parseStringBody : Nat → List Char → Option (List Char × List Char)
  | 0, _ => none
  | _ + 1, [] => none
  | fuel + 1, c :: rest =>
    if c = '"' then some ([], rest)
    else if c = '\\' then
      match rest with
      | [] => none
      | e :: rest2 =>
        if e = '"' ∨ e = '\\' ∨ e = '/' then
          (parseStringBody fuel rest2).map (fun r => (e :: r.1, r.2))
        else if e = 'b' then
          (parseStringBody fuel rest2).map (fun r => ('\x08' :: r.1, r.2))
        else if e = 'f' then
          (parseStringBody fuel rest2).map (fun r => ('\x0c' :: r.1, r.2))
        else if e = 'n' then
          (parseStringBody fuel rest2).map (fun r => ('\n' :: r.1, r.2))
        else if e = 'r' then
          (parseStringBody fuel rest2).map (fun r => ('\r' :: r.1, r.2))
        else if e = 't' then
          (parseStringBody fuel rest2).map (fun r => ('\t' :: r.1, r.2))
        else if e = 'u' then
          match rest2 with
          | h1 :: h2 :: h3 :: h4 :: rest3 =>
            match hexVal h1, hexVal h2, hexVal h3, hexVal h4 with
            | some a, some b, some cc, some d =>
              let code := ((a * 16 + b) * 16 + cc) * 16 + d
              if 0xd800 ≤ code ∧ code ≤ 0xdbff then
                match rest3 with
                | '\\' :: 'u' :: g1 :: g2 :: g3 :: g4 :: rest4 =>
                  match hexVal g1, hexVal g2, hexVal g3, hexVal g4 with
                  | some a2, some b2, some c2, some d2 =>
                    let code2 := ((a2 * 16 + b2) * 16 + c2) * 16 + d2
                    if 0xdc00 ≤ code2 ∧ code2 ≤ 0xdfff then
                      (parseStringBody fuel rest4).map (fun r =>
                        (Char.ofNat (0x10000 + (code - 0xd800) * 0x400
                          + (code2 - 0xdc00)) :: r.1, r.2))
                    else
                      (parseStringBody fuel rest3).map (fun r =>
                        (Char.ofNat code :: r.1, r.2))
                  | _, _, _, _ =>
                    (parseStringBody fuel rest3).map (fun r =>
                      (Char.ofNat code :: r.1, r.2))
                | _ =>
                  (parseStringBody fuel rest3).map (fun r =>
                    (Char.ofNat code :: r.1, r.2))
              else
                (parseStringBody fuel rest3).map (fun r =>
                  (Char.ofNat code :: r.1, r.2))
            | _, _, _, _ => none
          | _ => none
        else none
    else if c.toNat < 32 then none
    else (parseStringBody fuel rest).map (fun r => (c :: r.1, r.2))

/-- A JSON number token: optional minus, integer part without leading
zeros, optional fraction, optional exponent; the exact rational value and
the remaining input. -/
def parseNumberToken (cs : List Char) : Option (ℚ × List Char) :=
  let signAndRest : Bool × List Char :=
    match cs with
    | '-' :: r => (true, r)
    | _ => (false, cs)
  let neg := signAndRest.1
  let cs1 := signAndRest.2
  let ip := cs1.takeWhile Char.isDigit
  let cs2 := cs1.dropWhile Char.isDigit
  if ip.isEmpty then none
  else if 1 < ip.length ∧ ip.headD '0' = '0' then none
  else
    let fracAndRest : Option (List Char × List Char) :=
      match cs2 with
      | '.' :: r =>
        let fd := r.takeWhile Char.isDigit
        if fd.isEmpty then none else some (fd, r.dropWhile Char.isDigit)
      | _ => some ([], cs2)
    match fracAndRest with
    | none => none
    | some (fd, cs3) =>
      let expAndRest : Option (Int × List Char) :=
        match cs3 with
        | 'e' :: r | 'E' :: r =>
          let expSignAndRest : Bool × List Char :=
            match r with
            | '-' :: r2 => (true, r2)
            | '+' :: r2 => (false, r2)
            | _ => (false, r)
          let ed := expSignAndRest.2.takeWhile Char.isDigit
          if ed.isEmpty then none
          else
            some (if expSignAndRest.1 then -(digitsToNat ed : Int) else (digitsToNat ed : Int),
              expSignAndRest.2.dropWhile Char.isDigit)
        | _ => some (0, cs3)
      match expAndRest with
      | none => none
      | some (ex, cs4) =>
        let mantissa : ℚ := (digitsToNat (ip ++ fd) : ℚ)
        let value : ℚ := mantissa * (10 : ℚ) ^ (ex - (fd.length : Int))
        some ((if neg then -value else value), cs4)

/-- Object update used while parsing members: a duplicate key keeps its
first position and takes the later value, as JavaScript property
assignment does. -/
def objInsert (fields : List (String × Json)) (k : String) (v : Json) :
    List (String × Json) :=
  if fields.any (fun f => f.1 = k) then
    fields.map (fun f => if f.1 = k then (k, v) else f)
  else fields ++ [(k, v)]

mutual

/-- A JSON value at the head of the input (whitespace already skipped). -/
def parseValue : Nat → List Char → Option (Json × List Char)
  | 0, _ => none
  | fuel + 1, cs =>
    match cs with
    | 'n' :: 'u' :: 'l' :: 'l' :: rest => some (.null, rest)
    | 't' :: 'r' :: 'u' :: 'e' :: rest => some (.bool true, rest)
    | 'f' :: 'a' :: 'l' :: 's' :: 'e' :: rest => some (.bool false, rest)
    | '"' :: rest =>
      (parseStringBody (fuel + 1) rest).map (fun r => (.str (String.mk r.1), r.2))
    | '[' :: rest =>
      (match skipWs rest with
        | ']' :: r2 => some (.arr [], r2)
        | cs2 => parseArrayItems fuel cs2 [])
    | '\x7b' :: rest =>
      (match skipWs rest with
        | '\x7d' :: r2 => some (.obj [], r2)
        | cs2 => parseObjMembers fuel cs2 [])
    | _ => (parseNumberToken cs).map (fun r => (.num r.1, r.2))

/-- Comma-separated array items up to the closing bracket. -/
def parseArrayItems : Nat → List Char → List Json → Option (Json × List Char)
  | 0, _, _ => none
  | fuel + 1, cs, acc =>
    match parseValue fuel cs with
    | none => none
    | some (v, r) =>
      match skipWs r with
      | ',' :: r2 => parseArrayItems fuel (skipWs r2) (acc ++ [v])
      | ']' :: r2 => some (.arr (acc ++ [v]), r2)
      | _ => none

/-- Comma-separated `"key": value` members up to the closing brace. -/
def parseObjMembers : Nat → List Char → List (String × Json) → Option (Json × List Char)
  | 0, _, _ => none
  | fuel + 1, cs, acc =>
    match cs with
    | '"' :: rest =>
      (match parseStringBody (fuel + 1) rest with
        | none => none
        | some (kd, r) =>
          match skipWs r with
          | ':' :: r2 =>
            (match parseValue fuel (skipWs r2) with
              | none => none
              | some (v, r3) =>
                match skipWs r3 with
                | ',' :: r4 => parseObjMembers fuel (skipWs r4) (objInsert acc (String.mk kd) v)
                | '\x7d' :: r4 => some (.obj (objInsert acc (String.mk kd) v), r4)
                | _ => none)
          | _ => none)
    | _ => none

end

/-- `JSON.parse(s)`: `none` when the text is not valid JSON.  The fuel is
generous: every recursion step consumes at least one character of input. -/
def parseJson (s : String) : Option Json :=
  match parseValue (2 * s.length + 2) (skipWs s.data) with
  | some (v, rest) => if skipWs rest = [] then some v else none
  | none => none

/-! ### The Chat Turn Orchestrator (`handleSubmit` in Chat.tsx) -/

/-- Message sender. -/
inductive Sender where
  | user : Sender
  | bot : Sender
deriving DecidableEq, Repr

/-- A chat message as it exists at runtime.  `text` holds the JavaScript
value actually assigned (the success path assigns `parsed.response`, which
is `undefined` — `none` — when absent); `isSuspicious` is `none` when the
field is absent or `undefined`. -/
structure Message where
  id : String
  sender : Sender
  text : Option Json
  isSuspicious : Option Json

/-- The initial message list of the chat page. -/
def initialMessages : List Message :=
  [{ id := "welcome", sender := .bot,
     text := some (.str "Hi there! Welcome to the Hackerton chatbot demo. How can I help you today?"),
     isSuspicious := none }]

/-- Per-session orchestrator state: the message list, the input field, the
`isWaiting` flag (`true` is the Waiting state, `false` is Idle) and the
error banner. -/
structure ChatState where
  messages : List Message
  input : String
  isWaiting : Bool
  errorMessage : Option String

/-- Environment-injected configuration (`VITE_NEURALSEEK_API_BASE`,
`VITE_NEURALSEEK_API_KEY`, both defaulting to the empty string). -/
structure ChatConfig where
  apiBase : String
  apiKey : String

/-- Chat page state right after load. -/
def chatInitialState : ChatState :=
  { messages := initialMessages, input := "", isWaiting := false, errorMessage := none }

/-- A state in which a request is outstanding, used as a concrete witness
state. -/
def waitingChatState : ChatState :=
  { messages := initialMessages, input := "second message", isWaiting := true,
    errorMessage := none }

/-- Outcome of the `fetch`: a 2xx response with a JSON payload, or a
network failure / non-2xx status (both reach the `catch` block). -/
inductive RequestOutcome where
  | success : Json → RequestOutcome
  | failure : RequestOutcome

/-- The synchronous part of `handleSubmit` (lines 121-143): the guard
`if (!trimmed || isWaiting) return`, the configuration check, then the user
message is appended, the input cleared and `isWaiting` set.  `now` stands
for `Date.now()`. -/
def submitStart (cfg : ChatConfig) (now : Nat) (s : ChatState) : ChatState :=
  let trimmed := jsTrim s.input
  if trimmed = "" ∨ s.isWaiting then s
  else if cfg.apiBase = "" then
    { s with
      errorMessage :=
        some "NeuralSeek API endpoint is not configured. Please set VITE_NEURALSEEK_API_BASE." }
  else
    { s with
      messages := s.messages ++
        [{ id := "user-" ++ toString now, sender := .user,
           text := some (.str trimmed), isSuspicious := none }]
      input := ""
      isWaiting := true }

/-- The continuation of `handleSubmit` once the request settles (lines
173-225).  On success the code computes
`resolveBotText(data) + '\x22\x7d'` (the `|| ...` fallback is dead: the
appended text is never empty), tries `JSON.parse` on it, uses
`parsed.response` / `parsed.suspicious` when the parse succeeds and the
appended string with `isSuspicious = false` when it fails.  On failure a
fixed fallback message and an error banner are produced.  The `finally`
block clears `isWaiting` on every path. -/
def submitFinish (now : Nat) (s : ChatState) (out : RequestOutcome) : ChatState :=
  match out with
  | .success payload =>
    let raw := resolveBotText payload ++ "\"\x7d"
    let botReply := if raw = "" then "The service returned an empty response." else raw
    (match parseJson botReply with
      | some parsed =>
        { s with
          messages := s.messages ++
            [{ id := "bot-" ++ toString now, sender := .bot,
               text := getField parsed "response",
               isSuspicious := getField parsed "suspicious" }]
          errorMessage := none
          isWaiting := false }
      | none =>
        { s with
          messages := s.messages ++
            [{ id := "bot-" ++ toString now, sender := .bot,
               text := some (.str botReply), isSuspicious := some (.bool false) }]
          errorMessage := none
          isWaiting := false })
  | .failure =>
    { s with
      messages := s.messages ++
        [{ id := "bot-" ++ toString now, sender := .bot,
           text := some (.str "Sorry, I could not reach NeuralSeek right now. Please try again in a moment."),
           isSuspicious := none }]
      errorMessage := some "Failed to fetch a response from NeuralSeek."
      isWaiting := false }

/-! ### Helper lemmas about slicing and pagination arithmetic -/

theorem take_min_length {α : Type} (l : List α) (x : Nat) :
    l.take (min x l.length) = l.take x := by
  rcases le_total x l.length with h | h
  · rw [min_eq_left h]
  · rw [min_eq_right h, List.take_length, List.take_of_length_le h]

theorem drop_min_length {α : Type} (l : List α) (x : Nat) :
    l.drop (min x l.length) = l.drop x := by
  rcases le_total x l.length with h | h
  · rw [min_eq_left h]
  · rw [min_eq_right h, List.drop_length, List.drop_eq_nil_of_le h]

theorem jsSlice_natCast {α : Type} (l : List α) (a n : Nat) :
    jsSlice l (.i (a : Int)) (.i ((a + n : Nat) : Int)) = (l.drop a).take n := by
  have ha : ¬((a : Int) < 0) := not_lt.mpr (Int.natCast_nonneg a)
  have hb : ¬(((a + n : Nat) : Int) < 0) := not_lt.mpr (Int.natCast_nonneg _)
  simp only [jsSlice, sliceIndex, if_neg ha, if_neg hb, Int.toNat_natCast]
  rw [take_min_length]
  rcases le_total a l.length with h | h
  · rw [min_eq_left h, List.drop_take]
    congr 1
    omega
  · rw [min_eq_right h, List.drop_take, List.drop_length, List.drop_eq_nil_of_le h]
    simp

theorem jsCeil_formula (len n : Nat) (hn : 1 ≤ n) :
    ⌈(len : ℚ) / (n : ℚ)⌉ = ((len + n - 1) / n : Nat) := by
  have hn0 : 0 < n := hn
  have hq0 : (0 : ℚ) < n := by exact_mod_cast hn0
  set q := (len + n - 1) / n with hq
  have hA : len ≤ q * n := by
    have h := (Nat.div_lt_iff_lt_mul hn0).mp (Nat.lt_succ_self q)
    have h2 : (q + 1) * n = q * n + n := by ring
    rw [h2] at h
    generalize q * n = P at h ⊢
    omega
  have hB : q * n ≤ len + n - 1 := Nat.div_mul_le_self (len + n - 1) n
  have hB' : ((q * n : Nat) : ℚ) ≤ ((len + n - 1 : Nat) : ℚ) := by exact_mod_cast hB
  rw [Nat.cast_sub (by omega)] at hB'
  push_cast at hB'
  have hA' : ((len : Nat) : ℚ) ≤ ((q * n : Nat) : ℚ) := by exact_mod_cast hA
  push_cast at hA'
  rw [Int.ceil_eq_iff]
  constructor
  · push_cast
    rw [sub_lt_iff_lt_add, show ((len : ℚ) / n + 1) = ((len : ℚ) + n) / n by field_simp
      , lt_div_iff₀ hq0]
    nlinarith
  · push_cast
    rw [div_le_iff₀ hq0]
    linarith

theorem jsCeilDivLen_natCast (len n : Nat) (hn : 1 ≤ n) :
    jsCeilDivLen len (.i (n : Int)) = .i (((len + n - 1) / n : Nat) : Int) := by
  have hk : ¬((n : Int) = 0) := by
    intro h
    omega
  simp only [jsCeilDivLen]
  rw [if_neg hk]
  congr 1
  rw [show (((n : Int) : ℚ)) = (n : ℚ) by push_cast; ring]
  exact jsCeil_formula len n hn

theorem listReports_data_eq (s : ServerState) (p n : Nat) (hp : 1 ≤ p) (_hn : 1 ≤ n) :
    (listReports s (.i (p : Int)) (.i (n : Int))).data
      = (s.reports.drop ((p - 1) * n)).take n := by
  have hstart : (JsNum.sub (.i (p : Int)) (.i 1)).mul (.i (n : Int))
      = .i ((((p - 1) * n : Nat)) : Int) := by
    simp only [JsNum.sub, JsNum.neg, JsNum.add, JsNum.mul]
    congr 1
    push_cast [Nat.cast_sub hp]
    try ring
  have hstop : (JsNum.i ((((p - 1) * n : Nat)) : Int)).add (.i (n : Int))
      = .i ((((p - 1) * n + n : Nat)) : Int) := by
    simp only [JsNum.add]
    congr 1
    try push_cast
    try ring
  show jsSlice s.reports _ _ = _
  rw [hstart, hstop]
  exact jsSlice_natCast s.reports ((p - 1) * n) n

theorem submitN_counter (n : Nat) : (submitN n).counter = 8394 + n := by
  induction n with
  | zero => rfl
  | succ k ih =>
    have hv : ¬("Phishing" = "" ∨ "t" = "" ∨ "d" = "") := by decide
    simp [submitN, postReport, validSubmission, buildTicketId, hv, ih]
    omega

theorem seedTicket2_mem_submitN (n : Nat) : seedTicket2 ∈ (submitN n).reports := by
  induction n with
  | zero => simp [submitN, initialState]
  | succ k ih =>
    have hv : ¬("Phishing" = "" ∨ "t" = "" ∨ "d" = "") := by decide
    simp [submitN, postReport, validSubmission, hv]
    exact Or.inr ih

/-! ### Claim theorems about the report API -/

/-- C3 (amended): the POST handler answers 400 or 201, and it answers 400
exactly when `issue_type`, `title` or `description` is absent or the empty
string; no trimming is applied, so whitespace-only fields are accepted. -/
theorem postReport_status_iff (s : ServerState) (req : ReportRequest) (now : String) :
    ((postReport s req now).1.httpStatus = 400 ∨ (postReport s req now).1.httpStatus = 201)
    ∧ ((postReport s req now).1.httpStatus = 400 ↔
        (req.issue_type = none ∨ req.issue_type = some "" ∨ req.title = none ∨
         req.title = some "" ∨ req.description = none ∨ req.description = some "")) := by
  rcases req with ⟨it, ti, de, loc⟩
  rcases it with _ | it <;> rcases ti with _ | ti <;> rcases de with _ | de <;>
    simp [postReport, PostResult.httpStatus]
  by_cases h1 : it = "" <;> by_cases h2 : ti = "" <;> by_cases h3 : de = "" <;>
    simp [h1, h2, h3, PostResult.httpStatus]

/-- C3 (counterexample to the claim as stated): a request whose
`issue_type` is a single space is empty after trimming, yet the handler
accepts it with HTTP 201 instead of rejecting it with 400. -/
theorem postReport_accepts_whitespace_fields :
    jsTrim " " = ""
    ∧ (postReport initialState
        { issue_type := some " ", title := some "x", description := some "y",
          location := none } "2025-01-01T00:00:00.000Z").1.httpStatus = 201 :=
  ⟨rfl, rfl⟩

/-- C10: when the POST handler rejects a request with HTTP 400, the server
state (counter and stored reports) is exactly what it was before. -/
theorem postReport_validation_atomic (s : ServerState) (req : ReportRequest)
    (now : String) (h : (postReport s req now).1.httpStatus = 400) :
    (postReport s req now).2 = s := by
  rcases req with ⟨it, ti, de, loc⟩
  rcases it with _ | it <;> rcases ti with _ | ti <;> rcases de with _ | de <;>
    simp [postReport, PostResult.httpStatus] at h ⊢
  by_cases hv : it = "" ∨ ti = "" ∨ de = ""
  · simp [hv]
  · simp [hv, PostResult.httpStatus] at h

/-- Witness for C10 at a concrete rejected request. -/
theorem postReport_validation_atomic_witness :
    (postReport initialState
      { issue_type := none, title := some "x", description := some "y",
        location := none } "2025-01-01T00:00:00.000Z").1.httpStatus = 400
    ∧ (postReport initialState
        { issue_type := none, title := some "x", description := some "y",
          location := none } "2025-01-01T00:00:00.000Z").2 = initialState :=
  ⟨rfl, postReport_validation_atomic _ _ _ rfl⟩

theorem jsSlice_head_first_ten (l : List Ticket) (t : Ticket) :
    (jsSlice (t :: l) (JsNum.i 0) (JsNum.i 10)).head? = some t := by
  simp only [jsSlice, sliceIndex]
  norm_num
  rw [List.head?_take]
  have hmin : ¬(min 10 (t :: l).length = 0) := by
    simp [List.length_cons]
  simp [hmin]

/-- C4: a valid submission creates a ticket whose id comes from the counter,
whose status is `Pending Review`, whose `created_at` is the submission time,
whose `location` defaults to null when absent, and which is unshifted onto
the front of the store; a subsequent `GET /api/reports?page=1&limit=10`
returns it first with a non-empty `ticket_id`. -/
theorem postReport_success_creates_ticket (s : ServerState) (req : ReportRequest)
    (now it ti de : String) (hit : req.issue_type = some it) (hti : req.title = some ti)
    (hde : req.description = some de) (h1 : it ≠ "") (h2 : ti ≠ "") (h3 : de ≠ "") :
    ∃ t : Ticket,
      postReport s req now
        = (.created "Report submitted successfully" t,
           { counter := s.counter + 1, reports := t :: s.reports })
      ∧ t.ticket_id = (buildTicketId s.counter).1
      ∧ t.ticket_id = "SBU-" ++ toString (s.counter + 1)
      ∧ t.status = "Pending Review"
      ∧ t.created_at = now
      ∧ t.location = req.location
      ∧ t.ticket_id ≠ ""
      ∧ (getReports { counter := s.counter + 1, reports := t :: s.reports }
          { page := some "1", limit := some "10" }).data.head? = some t := by
  refine ⟨{ ticket_id := "SBU-" ++ toString (s.counter + 1), issue_type := it, title := ti,
            description := de, location := req.location, status := "Pending Review",
            created_at := now }, ?_, rfl, rfl, rfl, rfl, rfl, ?_, ?_⟩
  · rcases req with ⟨a, b, c, loc⟩
    cases hit
    cases hti
    cases hde
    have hv : ¬(it = "" ∨ ti = "" ∨ de = "") := by
      simp [h1, h2, h3]
    simp [postReport, buildTicketId, hv]
  · intro h
    have h2 := congrArg String.data h
    simp [String.data_append] at h2
  · exact jsSlice_head_first_ten s.reports _

/-- Witness for C4 at a concrete valid submission. -/
theorem postReport_success_creates_ticket_witness :
    validSubmission.issue_type = some "Phishing"
    ∧ ("Phishing" : String) ≠ ""
    ∧ ∃ t : Ticket,
      postReport initialState validSubmission "2025-01-01T00:00:00.000Z"
        = (.created "Report submitted successfully" t,
           { counter := initialState.counter + 1, reports := t :: initialState.reports })
      ∧ t.ticket_id = (buildTicketId initialState.counter).1
      ∧ t.ticket_id = "SBU-" ++ toString (initialState.counter + 1)
      ∧ t.status = "Pending Review"
      ∧ t.created_at = "2025-01-01T00:00:00.000Z"
      ∧ t.location = validSubmission.location
      ∧ t.ticket_id ≠ ""
      ∧ (getReports
            { counter := initialState.counter + 1, reports := t :: initialState.reports }
          { page := some "1", limit := some "10" }).data.head? = some t :=
  ⟨rfl, by decide,
    postReport_success_creates_ticket initialState validSubmission
      "2025-01-01T00:00:00.000Z" "Phishing" "t" "d" rfl rfl rfl
      (by decide) (by decide) (by decide)⟩

theorem postReport_validSubmission_fst (s : ServerState) (now : String) :
    (postReport s validSubmission now).1
      = .created "Report submitted successfully"
          { ticket_id := "SBU-" ++ toString (s.counter + 1), issue_type := "Phishing",
            title := "t", description := "d", location := none,
            status := "Pending Review", created_at := now } := by
  have hv : ¬(("Phishing" : String) = "" ∨ ("t" : String) = "" ∨ ("d" : String) = "") := by
    decide
  simp [postReport, validSubmission, buildTicketId, hv]

/-- C5 (evaluation of the defect): the store seeded with `SBU-84392` and
`SBU-84393` still contains `SBU-84392` after 75,997 valid submissions, and
the 75,998th valid submission is accepted with a ticket whose `ticket_id`
equals that stored ticket's id — the generated ids are not unique across
the store. -/
theorem ticketId_collision_with_seed :
    ∃ t : Ticket, t ∈ (submitN 75997).reports
      ∧ (postReport (submitN 75997) validSubmission "2025-01-02T00:00:00.000Z").1
        = .created "Report submitted successfully"
            { ticket_id := t.ticket_id, issue_type := "Phishing", title := "t",
              description := "d", location := none, status := "Pending Review",
              created_at := "2025-01-02T00:00:00.000Z" } := by
  refine ⟨seedTicket2, seedTicket2_mem_submitN 75997, ?_⟩
  rw [postReport_validSubmission_fst, submitN_counter]
  rfl

/-- C6: for positive page `p` and limit `n`, the listing returns exactly
the slice `[(p-1)*n, p*n)` of the newest-first store, an out-of-range page
yields the empty slice rather than an error, and the pagination object
reports the store size, the current page, and `totalPages` equal to the
ceiling of `totalResults / n` (written with integer arithmetic as
`(totalResults + n - 1) / n`). -/
theorem listReports_pagination_spec (s : ServerState) (p n : Nat)
    (hp : 1 ≤ p) (hn : 1 ≤ n) :
    (listReports s (.i (p : Int)) (.i (n : Int))).data
      = (s.reports.drop ((p - 1) * n)).take n
    ∧ (s.reports.length ≤ (p - 1) * n →
        (listReports s (.i (p : Int)) (.i (n : Int))).data = [])
    ∧ (listReports s (.i (p : Int)) (.i (n : Int))).pagination.totalResults
      = s.reports.length
    ∧ (listReports s (.i (p : Int)) (.i (n : Int))).pagination.totalPages
      = .i (((s.reports.length + n - 1) / n : Nat) : Int)
    ∧ (listReports s (.i (p : Int)) (.i (n : Int))).pagination.currentPage
      = .i (p : Int) := by
  refine ⟨listReports_data_eq s p n hp hn, ?_, rfl, ?_, rfl⟩
  · intro h
    rw [listReports_data_eq s p n hp hn, List.drop_eq_nil_of_le h]
    simp
  · show jsCeilDivLen s.reports.length (.i (n : Int)) = _
    exact jsCeilDivLen_natCast s.reports.length n hn

/-- Witness for C6 at page 1, limit 10 on the seeded store. -/
theorem listReports_pagination_spec_witness :
    (1 : Nat) ≤ 1
    ∧ (listReports initialState (.i ((1 : Nat) : Int)) (.i ((10 : Nat) : Int))).data
      = (initialState.reports.drop ((1 - 1) * 10)).take 10 :=
  ⟨le_refl 1,
    (listReports_pagination_spec initialState 1 10 (le_refl 1) (by decide)).1⟩

theorem chunks_join {α : Type} (n : Nat) (hn : 1 ≤ n) :
    ∀ (N : Nat) (l : List α), l.length ≤ N →
      ((List.range ((l.length + n - 1) / n)).map
        (fun i => (l.drop (i * n)).take n)).flatten = l := by
  intro N
  induction N with
  | zero =>
    intro l hl
    have hnil : l = [] := List.eq_nil_of_length_eq_zero (by omega)
    subst hnil
    simp [Nat.div_eq_of_lt (show n - 1 < n by omega)]
  | succ N ih =>
    intro l hl
    rcases l with _ | ⟨a, l'⟩
    · simp [Nat.div_eq_of_lt (show n - 1 < n by omega)]
    · have hsplit : ((a :: l').length + n - 1) / n
          = (((a :: l').drop n).length + n - 1) / n + 1 := by
        rw [List.length_drop]
        set L := (a :: l').length with hLdef
        have hL : 1 ≤ L := by simp [hLdef]
        rcases le_or_lt L n with h | h
        · have e1 : L - n = 0 := by omega
          have e2 : L + n - 1 = (L - 1) + n := by omega
          rw [e1, e2, Nat.add_div_right _ (by omega), Nat.div_eq_of_lt (by omega),
            Nat.div_eq_of_lt (by omega)]
        · have e1 : (L - n) + n - 1 = L - 1 := by omega
          have e2 : L + n - 1 = (L - 1) + n := by omega
          rw [e1, e2, Nat.add_div_right _ (by omega)]
      rw [hsplit, List.range_succ_eq_map, List.map_cons]
      simp only [Nat.zero_mul, List.drop_zero, List.map_map, List.flatten_cons]
      have hmap : (List.map ((fun i => ((a :: l').drop (i * n)).take n) ∘ Nat.succ)
            (List.range ((((a :: l').drop n).length + n - 1) / n)))
          = (List.map (fun i => (((a :: l').drop n).drop (i * n)).take n)
            (List.range ((((a :: l').drop n).length + n - 1) / n))) := by
        apply List.map_congr_left
        intro i _
        simp only [Function.comp]
        rw [List.drop_drop, Nat.succ_mul]
        congr 2
        omega
      have hlen : ((a :: l').drop n).length ≤ N := by
        rw [List.length_drop]
        simp only [List.length_cons] at hl ⊢
        omega
      rw [hmap, ih ((a :: l').drop n) hlen]
      exact List.take_append_drop n (a :: l')

/-- C7: concatenating the `data` slices returned by the listing for pages
`1 .. totalPages` (at any positive page size `n`) reproduces the full store
contents, each ticket exactly once, in store order. -/
theorem listReports_pages_join_store (s : ServerState) (n : Nat) (hn : 1 ≤ n) :
    (listReports s (.i ((1 : Nat) : Int)) (.i (n : Int))).pagination.totalPages
      = .i (((s.reports.length + n - 1) / n : Nat) : Int)
    ∧ ((List.range ((s.reports.length + n - 1) / n)).map
        (fun i => (listReports s (.i (((i + 1 : Nat)) : Int)) (.i (n : Int))).data)).flatten
      = s.reports := by
  constructor
  · show jsCeilDivLen s.reports.length (.i (n : Int)) = _
    exact jsCeilDivLen_natCast s.reports.length n hn
  · have hmap : (List.map
          (fun i => (listReports s (.i (((i + 1 : Nat)) : Int)) (.i (n : Int))).data)
          (List.range ((s.reports.length + n - 1) / n)))
        = (List.map (fun i => (s.reports.drop (i * n)).take n)
          (List.range ((s.reports.length + n - 1) / n))) := by
      apply List.map_congr_left
      intro i _
      rw [listReports_data_eq s (i + 1) n (by omega) hn]
      simp
    rw [hmap]
    exact chunks_join n hn s.reports.length s.reports (le_refl _)

/-- Witness for C7 on the seeded store with page size 1. -/
theorem listReports_pages_join_store_witness :
    (1 : Nat) ≤ 1
    ∧ ((List.range ((initialState.reports.length + 1 - 1) / 1)).map
        (fun i => (listReports initialState (.i (((i + 1 : Nat)) : Int))
          (.i ((1 : Nat) : Int))).data)).flatten
      = initialState.reports :=
  ⟨le_refl 1, (listReports_pages_join_store initialState 1 (le_refl 1)).2⟩

/-- C8 (amended): a missing `page` or `limit` parameter defaults to `1` and
`10`; a non-numeric parameter parses to `NaN`, which makes the returned
`data` slice empty (the handler still answers successfully — it never
produces an error response). -/
theorem getReports_defaults_amended (s : ServerState) :
    getReports s { page := none, limit := none }
      = getReports s { page := some "1", limit := some "10" }
    ∧ (∀ ps ls : String, parseIntJS ps = .nan →
        (getReports s { page := some ps, limit := some ls }).data = [])
    ∧ (∀ ps ls : String, parseIntJS ls = .nan →
        (getReports s { page := some ps, limit := some ls }).data = []) := by
  refine ⟨rfl, ?_, ?_⟩
  · intro ps ls h
    show (listReports s (parseIntJS ps) (parseIntJS ls)).data = []
    rw [h]
    cases parseIntJS ls <;>
      simp [listReports, jsSlice, sliceIndex, JsNum.sub, JsNum.neg, JsNum.add, JsNum.mul]
  · intro ps ls h
    show (listReports s (parseIntJS ps) (parseIntJS ls)).data = []
    rw [h]
    cases hp : parseIntJS ps <;>
      simp [listReports, jsSlice, sliceIndex, JsNum.sub, JsNum.neg, JsNum.add, JsNum.mul]

/-- Witness for C8 (amended) at a concrete non-numeric `page`. -/
theorem getReports_defaults_amended_witness :
    parseIntJS "abc" = .nan
    ∧ (getReports initialState { page := some "abc", limit := some "10" }).data = [] :=
  ⟨rfl, (getReports_defaults_amended initialState).2.1 "abc" "10" rfl⟩

/-- C8 (counterexample to the claim as stated): with the seeded store, a
non-numeric `page` yields an empty `data` array, which differs from the
behaviour with `page = 1` and `limit = 10` (the two seeded tickets), so a
non-numeric parameter is not treated as its default. -/
theorem getReports_non_numeric_page_not_default :
    (getReports initialState { page := some "abc", limit := none }).data = []
    ∧ (getReports initialState { page := some "1", limit := some "10" }).data
      = initialState.reports
    ∧ initialState.reports ≠ [] := by
  refine ⟨rfl, rfl, ?_⟩
  simp [initialState]

/-! ### Claim theorems about the chat orchestrator -/

/-- C9: while a request is outstanding (`isWaiting`), a second submit
attempt returns the state unchanged (in particular the message list), and
the continuation of a request — successful or failed — always ends with
`isWaiting = false` (Idle), so at most one request is outstanding. -/
theorem chat_single_outstanding_request :
    (∀ (cfg : ChatConfig) (now : Nat) (s : ChatState),
      s.isWaiting = true → submitStart cfg now s = s)
    ∧ (∀ (now : Nat) (s : ChatState) (out : RequestOutcome),
      (submitFinish now s out).isWaiting = false) := by
  constructor
  · intro cfg now s h
    simp [submitStart, h]
  · intro now s out
    cases out with
    | success p =>
      simp only [submitFinish]
      split <;> rfl
    | failure => rfl

/-- Witness for C9: a concrete Waiting state on which a second submit is a
no-op and whose request continuation returns to Idle. -/
theorem chat_single_outstanding_request_witness :
    waitingChatState.isWaiting = true
    ∧ submitStart { apiBase := "https://api.example.test", apiKey := "" } 0 waitingChatState
      = waitingChatState
    ∧ (submitFinish 0 waitingChatState .failure).isWaiting = false :=
  ⟨rfl,
    chat_single_outstanding_request.1 { apiBase := "https://api.example.test", apiKey := "" }
      0 waitingChatState rfl,
    chat_single_outstanding_request.2 0 waitingChatState .failure⟩

theorem append_close_suffix_ne_empty (a : String) : a ++ "\"\x7d" ≠ "" := by
  intro h
  have h2 := congrArg String.data h
  simp [String.data_append] at h2

/-- C2 (amended): the orchestrator appends `\x22\x7d` to the resolved
string before the secondary `JSON.parse`; whenever that parse fails, the
appended bot message's text is the resolved string with `\x22\x7d`
appended — not the resolved string itself — and its `isSuspicious` flag is
`false`. -/
theorem submitFinish_parse_failure (p : Json) (now : Nat) (s : ChatState)
    (h : parseJson (resolveBotText p ++ "\"\x7d") = none) :
    (submitFinish now s (.success p)).messages
      = s.messages ++
        [{ id := "bot-" ++ toString now, sender := .bot,
           text := some (.str (resolveBotText p ++ "\"\x7d")),
           isSuspicious := some (.bool false) }]
    ∧ (submitFinish now s (.success p)).isWaiting = false := by
  have hne := append_close_suffix_ne_empty (resolveBotText p)
  simp only [submitFinish]
  rw [if_neg hne, h]
  exact ⟨rfl, rfl⟩

/-- Witness for C2 (amended) at a concrete payload whose resolved reply is
not valid JSON once the suffix is appended. -/
theorem submitFinish_parse_failure_witness :
    parseJson (resolveBotText (Json.obj [("answer", Json.str "hi")]) ++ "\"\x7d") = none
    ∧ (submitFinish 0 chatInitialState
        (.success (Json.obj [("answer", Json.str "hi")]))).messages
      = chatInitialState.messages ++
        [{ id := "bot-" ++ toString 0, sender := .bot,
           text := some (.str (resolveBotText (Json.obj [("answer", Json.str "hi")]) ++ "\"\x7d")),
           isSuspicious := some (.bool false) }] :=
  ⟨rfl,
    (submitFinish_parse_failure (Json.obj [("answer", Json.str "hi")]) 0
      chatInitialState rfl).1⟩

/-- C2 (counterexample to the claim as stated): for the payload
`\x7banswer: "hi"\x7d` the resolver yields `"hi"`, the secondary parse (of
the appended string) fails, yet the appended bot message's text is
`hi\x22\x7d`, not the resolved string `hi`. -/
theorem submitFinish_text_not_resolved_string :
    resolveBotText (Json.obj [("answer", Json.str "hi")]) = "hi"
    ∧ parseJson ("hi" ++ "\"\x7d") = none
    ∧ (submitFinish 0 chatInitialState
        (.success (Json.obj [("answer", Json.str "hi")]))).messages.getLast?
      = some
        { id := "bot-" ++ toString 0, sender := Sender.bot,
          text := some (Json.str "hi\"\x7d"), isSuspicious := some (Json.bool false) }
    ∧ (some (Json.str "hi\"\x7d") : Option Json) ≠ some (Json.str "hi") := by
  refine ⟨rfl, rfl, rfl, ?_⟩
  simp only [ne_eq, Option.some.injEq]
  intro h
  have h2 : ("hi\"\x7d" : String) = "hi" := by
    injection h
  exact absurd h2 (by decide)

/-! ### Helper lemmas for the resolver equivalence -/

theorem firstTextCandidate_eq (cs : List (Option Json)) :
    firstTextCandidate cs = firstNonBlank (cs.map optString) := by
  induction cs with
  | nil => rfl
  | cons c rest ih =>
    rcases c with _ | j
    · simpa [firstTextCandidate, firstNonBlank, optString] using ih
    · cases j <;> simp [firstTextCandidate, firstNonBlank, optString, ih]

theorem firstNonBlank_none_cons (rest : List (Option String)) :
    firstNonBlank (none :: rest) = firstNonBlank rest := rfl

theorem firstNonBlank_blank_cons (s : String) (hs : ¬(0 < (jsTrim s).length))
    (rest : List (Option String)) :
    firstNonBlank (some s :: rest) = firstNonBlank rest := by
  simp [firstNonBlank, hs]

theorem firstNonBlank_cons_congr (a : Option String) (r1 r2 : List (Option String))
    (h : firstNonBlank r1 = firstNonBlank r2) :
    firstNonBlank (a :: r1) = firstNonBlank (a :: r2) := by
  rcases a with _ | x
  · simpa [firstNonBlank] using h
  · by_cases hx : 0 < (jsTrim x).length <;> simp [firstNonBlank, hx, h]

theorem choicesPart_eq (p : Json) :
    (match choiceContentOf p with
      | .str s => if 0 < (jsTrim s).length then s else jsStringifyPretty p
      | _ => jsStringifyPretty p)
    = (match optString (choicesContentVal p) with
      | some s => if 0 < (jsTrim s).length then s else jsStringifyPretty p
      | none => jsStringifyPretty p) := by
  have hblank : ¬(0 < (jsTrim "").length) := by decide
  cases hv : choicesContentVal p with
  | none => simp [choiceContentOf, hv, optString, hblank]
  | some v =>
    cases v with
    | str s =>
      by_cases hs : s = ""
      · subst hs
        simp [choiceContentOf, hv, optString, Json.falsy, hblank]
      · simp [choiceContentOf, hv, optString, Json.falsy, hs]
    | num q =>
      by_cases hq : q = 0 <;>
        simp [choiceContentOf, hv, optString, Json.falsy, hq, hblank]
    | bool b =>
      cases b <;> simp [choiceContentOf, hv, optString, Json.falsy, hblank]
    | null => simp [choiceContentOf, hv, optString, Json.falsy, hblank]
    | arr xs => simp [choiceContentOf, hv, optString, Json.falsy]
    | obj fs => simp [choiceContentOf, hv, optString, Json.falsy]

theorem candidateLists_eq (p : Json) :
    firstNonBlank ((codeCandidates p).map optString)
      = firstNonBlank (specCandidatesAmended p) := by
  simp only [codeCandidates, specCandidatesAmended, List.map_cons, List.map_nil]
  have hout : optString (match getField p "outputs" with
      | some (.arr xs) => some (.str (jsArrJoin "\n" xs))
      | _ => none)
      = (match getField p "outputs" with
        | some (.arr xs) => some (jsArrJoin "\n" xs)
        | _ => none) := by
    rcases getField p "outputs" with _ | j
    · rfl
    · cases j <;> rfl
  rw [hout]
  rcases hsp : getField p "sourceParts" with _ | j
  · rfl
  · cases j with
    | arr xs =>
      cases xs with
      | nil =>
        simp only [hsp, List.length_nil, stringParts, List.filterMap_nil,
          String.intercalate, optString]
        norm_num
        apply firstNonBlank_cons_congr
        apply firstNonBlank_cons_congr
        apply firstNonBlank_cons_congr
        apply firstNonBlank_cons_congr
        rw [firstNonBlank_none_cons, firstNonBlank_blank_cons "" (by decide)]
      | cons x xs2 =>
        simp only [hsp, List.length_cons, optString]
        norm_num
    | str s => simp only [hsp]; rfl
    | num q => simp only [hsp]; rfl
    | bool b => simp only [hsp]; rfl
    | null => simp only [hsp]; rfl
    | obj fs => simp only [hsp]; rfl

theorem resolveProbe_eq (p : Json) :
    resolveProbe p
      = (match firstNonBlank (specCandidatesAmended p) with
        | some s => s
        | none =>
          match optString (choicesContentVal p) with
          | some s => if 0 < (jsTrim s).length then s else jsStringifyPretty p
          | none => jsStringifyPretty p) := by
  unfold resolveProbe
  rw [firstTextCandidate_eq, candidateLists_eq]
  cases hfb : firstNonBlank (specCandidatesAmended p) with
  | some s => rfl
  | none => exact choicesPart_eq p

/-- C1 (amended): `resolveBotText` satisfies the amended resolver contract
on every payload — a falsy payload (null, false, 0, the empty string)
yields the empty string, a string payload is returned unchanged, the keys
are probed in the specified order for the first string with non-whitespace
content but with the `sourceParts` candidate joining only the parts that
are strings with non-whitespace content (whitespace-only string parts are
dropped, unlike the claim's type-only filtered-to-strings),
`choices[0].message.content` is returned when it is a string with
non-whitespace content, and otherwise the pretty-printed payload is
returned — and the specification's three examples hold. -/
theorem resolveBotText_matches_amended_contract :
    (∀ p : Json, resolveBotText p = specResolveAmended p)
    ∧ resolveBotText (Json.obj [("answer", Json.str "hi")]) = "hi"
    ∧ resolveBotText (Json.obj [("choices",
        Json.arr [Json.obj [("message", Json.obj [("content", Json.str "hey")])]])]) = "hey"
    ∧ resolveBotText (Json.obj [("foo", Json.num 1)])
      = jsStringifyPretty (Json.obj [("foo", Json.num 1)])
    ∧ jsStringifyPretty (Json.obj [("foo", Json.num 1)]) = "\x7b\n  \"foo\": 1\n\x7d" := by
  refine ⟨?_, rfl, rfl, rfl, ?_⟩
  · intro p
    unfold resolveBotText specResolveAmended
    by_cases hf : p.falsy
    · simp [hf]
    · rw [if_neg hf, if_neg hf]
      cases p with
      | str s => rfl
      | num q => exact resolveProbe_eq _
      | bool b => exact resolveProbe_eq _
      | null => exact resolveProbe_eq _
      | arr xs => exact resolveProbe_eq _
      | obj fs => exact resolveProbe_eq _
  · simp only [jsStringifyPretty, stringifyAt, stringifyFields, quoteJs, escapeChars,
      ratToJsString]
    norm_num
    rfl

/-- C1 (counterexamples to the claim as stated), one per divergence.
First, the payload `null` (not a string, no probed keys, no `choices`)
must resolve to its pretty-printed serialization `"null"` per the claim,
but the code's falsiness guard returns the empty string.  Second, for
`sourceParts = ["a", " ", "b"]` the claim's filtered-to-strings join is
`"a\n \nb"`, but the code drops the whitespace-only part and returns
`"a\nb"`.  Third, a whitespace-only `choices[0].message.content` is a
non-empty string, which the claim returns, but the code falls through to
the pretty-printed payload. -/
theorem resolveBotText_claim_counterexample :
    resolveBotText Json.null = ""
    ∧ specResolveClaimed Json.null = jsStringifyPretty Json.null
    ∧ jsStringifyPretty Json.null = "null"
    ∧ resolveBotText Json.null ≠ specResolveClaimed Json.null
    ∧ resolveBotText
        (Json.obj [("sourceParts", Json.arr [Json.str "a", Json.str " ", Json.str "b"])])
      = "a\nb"
    ∧ specResolveClaimed
        (Json.obj [("sourceParts", Json.arr [Json.str "a", Json.str " ", Json.str "b"])])
      = "a\n \nb"
    ∧ resolveBotText
        (Json.obj [("sourceParts", Json.arr [Json.str "a", Json.str " ", Json.str "b"])])
      ≠ specResolveClaimed
        (Json.obj [("sourceParts", Json.arr [Json.str "a", Json.str " ", Json.str "b"])])
    ∧ specResolveClaimed
        (Json.obj [("choices",
          Json.arr [Json.obj [("message", Json.obj [("content", Json.str " ")])]])])
      = " "
    ∧ resolveBotText
        (Json.obj [("choices",
          Json.arr [Json.obj [("message", Json.obj [("content", Json.str " ")])]])])
      = jsStringifyPretty
        (Json.obj [("choices",
          Json.arr [Json.obj [("message", Json.obj [("content", Json.str " ")])]])])
    ∧ resolveBotText
        (Json.obj [("choices",
          Json.arr [Json.obj [("message", Json.obj [("content", Json.str " ")])]])])
      ≠ specResolveClaimed
        (Json.obj [("choices",
          Json.arr [Json.obj [("message", Json.obj [("content", Json.str " ")])]])]) := by
  refine ⟨rfl, rfl, ?_, ?_, rfl, rfl, ?_, rfl, rfl, ?_⟩
  · simp [jsStringifyPretty, stringifyAt]
  · intro h
    have h2 : ("" : String) = "null" := by
      calc ("" : String) = resolveBotText Json.null := rfl
        _ = specResolveClaimed Json.null := h
        _ = jsStringifyPretty Json.null := rfl
        _ = "null" := by simp [jsStringifyPretty, stringifyAt]
    exact absurd h2 (by decide)
  · intro h
    have h2 : ("a\nb" : String) = "a\n \nb" := by
      calc ("a\nb" : String)
          = resolveBotText
              (Json.obj [("sourceParts",
                Json.arr [Json.str "a", Json.str " ", Json.str "b"])]) := rfl
        _ = specResolveClaimed
              (Json.obj [("sourceParts",
                Json.arr [Json.str "a", Json.str " ", Json.str "b"])]) := h
        _ = "a\n \nb" := rfl
    exact absurd h2 (by decide)
  · intro h
    have h2 : jsStringifyPretty
        (Json.obj [("choices",
          Json.arr [Json.obj [("message", Json.obj [("content", Json.str " ")])]])])
        = " " := by
      calc jsStringifyPretty
            (Json.obj [("choices",
              Json.arr [Json.obj [("message", Json.obj [("content", Json.str " ")])]])])
          = resolveBotText
            (Json.obj [("choices",
              Json.arr [Json.obj [("message", Json.obj [("content", Json.str " ")])]])]) := rfl
        _ = specResolveClaimed
            (Json.obj [("choices",
              Json.arr [Json.obj [("message", Json.obj [("content", Json.str " ")])]])]) := h
        _ = " " := rfl
    have h3 : jsStringifyPretty
        (Json.obj [("choices",
          Json.arr [Json.obj [("message", Json.obj [("content", Json.str " ")])]])])
        = "\x7b\n  \"choices\": [\n    \x7b\n      \"message\": \x7b\n        \"content\": \" \"\n      \x7d\n    \x7d\n  ]\n\x7d" := by
      simp only [jsStringifyPretty, stringifyAt, stringifyFields, stringifyItems, quoteJs,
        escapeChars]
      rfl
    rw [h3] at h2
    exact absurd h2 (by decide)


/-- Witness for C3 (amended) at the specification's own example: an empty
`issue_type` yields HTTP 400. -/
theorem postReport_status_iff_witness :
    (postReport initialState
      { issue_type := some "", title := some "x", description := some "y",
        location := none } "2025-01-01T00:00:00.000Z").1.httpStatus = 400 :=
  (postReport_status_iff initialState
    { issue_type := some "", title := some "x", description := some "y",
      location := none } "2025-01-01T00:00:00.000Z").2.mpr (Or.inr (Or.inl rfl))
